import Mathlib

/-!
Shallow embedding of `krabby_details` (src/src/lib.rs): RFC 9457 problem
detail types and their serde/axum encoding.

Serde serialization is modelled as producing a `Json` tree; the bytes
written by `serde_json::to_writer` are the compact rendering of that tree
(`Json.render`).  An `Extension`'s `serde::Serialize` implementation is
modelled as a function `Extension → Except Unit Json` (serialization may
fail).  Serde's `#[serde(flatten)]` of a value that serializes to anything
other than a map/struct fails with "can only flatten structs and maps";
this is modelled in `problemFields`.
-/

/-- A JSON value, as produced by serde_json. -/
inductive Json where
  | null : Json
  | bool (b : Bool) : Json
  | num (n : Int) : Json
  | str (s : String) : Json
  | arr (elems : List Json) : Json
  | obj (fields : List (String × Json)) : Json

/-- Hex digit as written by serde_json (lowercase). -/
def hexDigit (n : Nat) : Char :=
  if n < 10 then Char.ofNat (48 + n) else Char.ofNat (87 + n)

/-- serde_json's escaping of a single character inside a JSON string. -/
def escapeChar (c : Char) : String :=
  if c = '"' then "\\\""
  else if c = '\\' then "\\\\"
  else if c.toNat = 8 then "\\b"
  else if c.toNat = 9 then "\\t"
  else if c.toNat = 10 then "\\n"
  else if c.toNat = 12 then "\\f"
  else if c.toNat = 13 then "\\r"
  else if c.toNat < 32 then
    "\\u00" ++ String.mk [hexDigit (c.toNat / 16), hexDigit (c.toNat % 16)]
  else String.mk [c]

/-- serde_json's rendering of a JSON string literal. -/
def escapeString (s : String) : String :=
  "\"" ++ String.join (s.data.map escapeChar) ++ "\""

mutual

/-- Compact rendering of a `Json` tree, byte for byte what
`serde_json::to_writer` emits. -/
def Json.render : Json → String
  | .null => "null"
  | .bool true => "true"
  | .bool false => "false"
  | .num n => toString n
  | .str s => escapeString s
  | .arr es => "[" ++ Json.renderArr es ++ "]"
  | .obj fs => "\x7b" ++ Json.renderObj fs ++ "\x7d"

/-- Comma-separated rendering of array elements, in order. -/
def Json.renderArr : List Json → String
  | [] => ""
  | [j] => Json.render j
  | j :: j' :: js => Json.render j ++ "," ++ Json.renderArr (j' :: js)

/-- Comma-separated rendering of object members, in order. -/
def Json.renderObj : List (String × Json) → String
  | [] => ""
  | [(k, v)] => escapeString k ++ ":" ++ Json.render v
  | (k, v) :: f :: fs =>
      escapeString k ++ ":" ++ Json.render v ++ "," ++ Json.renderObj (f :: fs)

end

/-- The request part where the problem occurred (`Source` in lib.rs):
`#[serde(tag = "source", rename_all = "snake_case")]`. -/
inductive Source where
  | body (pointer : Option String) : Source
  | header (name : String) : Source
deriving Repr, DecidableEq

/-- The member list serde produces for a `Source` value: the `source`
discriminator first (internally tagged enum), then the variant's own
fields in declaration order.  `pointer : Option<String>` has no
`skip_serializing_if`, so `None` serializes as JSON `null`. -/
def Source.serdeFields : Source → List (String × Json)
  | .body pointer =>
      [("source", Json.str "body"),
       ("pointer", match pointer with
                   | none => Json.null
                   | some p => Json.str p)]
  | .header name =>
      [("source", Json.str "header"), ("name", Json.str name)]

/-- Serialization of a `Source` value on its own. -/
def Source.toJson (s : Source) : Json :=
  Json.obj s.serdeFields

/-- `ValidationError` in lib.rs: a detail string plus a
`#[serde(flatten)]`-ed `Source`. -/
structure ValidationError where
  detail : String
  source : Source
deriving Repr, DecidableEq

/-- Serialization of a `ValidationError`: the `detail` member followed by
the `Source`'s members flattened into the same object. -/
def ValidationError.toJson (v : ValidationError) : Json :=
  Json.obj (("detail", Json.str v.detail) :: v.source.serdeFields)

/-- `ValidationErrors` in lib.rs: an ordered list of errors. -/
structure ValidationErrors where
  errors : List ValidationError
deriving Repr, DecidableEq

/-- Serialization of `ValidationErrors`: a single `errors` member holding
the array of serialized errors, in input order. -/
def ValidationErrors.toJson (v : ValidationErrors) : Json :=
  Json.obj [("errors", Json.arr (v.errors.map ValidationError.toJson))]

/-- The serializer for `ValidationErrors` as an `Extension`
(its derived `Serialize` never fails). -/
def serValidationErrors (v : ValidationErrors) : Except Unit Json :=
  Except.ok v.toJson

/-- `ProblemDetails<Extension>` in lib.rs.  `status` is a `u16` in the
source; it is modelled as `Nat`.  `type_` is renamed to `type` on the
wire; `extensions` is flattened and skipped when `None`. -/
structure ProblemDetails (Extension : Type) where
  type_ : String
  status : Nat
  title : String
  detail : String
  extensions : Option Extension

/-- The four required members of the envelope, in declaration order,
with `type_` renamed to `type` and `status` as a JSON number. -/
def baseFields {Extension : Type} (p : ProblemDetails Extension) :
    List (String × Json) :=
  [("type", Json.str p.type_),
   ("status", Json.num p.status),
   ("title", Json.str p.title),
   ("detail", Json.str p.detail)]

/-- serde serialization of a `ProblemDetails<Extension>` given the
extension's serializer `ser`: the four required members, then — when
`extensions` is `Some` — the extension's members merged at the same
level.  Fails when `ser` fails, or when the extension serializes to a
non-object (serde: "can only flatten structs and maps"). -/
def problemFields {Extension : Type} (ser : Extension → Except Unit Json)
    (p : ProblemDetails Extension) : Except Unit (List (String × Json)) :=
  match p.extensions with
  | none => Except.ok (baseFields p)
  | some e =>
      match ser e with
      | Except.error u => Except.error u
      | Except.ok (Json.obj kvs) => Except.ok (baseFields p ++ kvs)
      | Except.ok _ => Except.error ()

/-- The `CONTENT_TYPE` header name. -/
def CONTENT_TYPE : String := "content-type"

/-- `APPLICATION_PROBLEM_JSON` in lib.rs. -/
def APPLICATION_PROBLEM_JSON : String := "application/problem+json"

/-- `INTERNAL_SERVER_ERROR_PROBLEM` in lib.rs: the pre-rendered fallback
body, byte for byte as written in the source (a raw string literal),
including the missing comma after the `detail` member. -/
def INTERNAL_SERVER_ERROR_PROBLEM : String :=
  "\x7b\n    \"type\": \"internal_server_error\",\n    \"title\": \"Internal Server Error\",\n    \"detail\": \"Something went wrong when processing your request. Please try again later.\"\n    \"status\": 500\n\x7d"

/-- `INTERNAL_SERVER_ERROR` in lib.rs: status 500, the problem content
type, and the static fallback body. -/
def INTERNAL_SERVER_ERROR : Nat × List (String × String) × String :=
  (500, [(CONTENT_TYPE, APPLICATION_PROBLEM_JSON)], INTERNAL_SERVER_ERROR_PROBLEM)

/-- An HTTP response as built by `into_response`: status code, headers,
body bytes. -/
structure Response where
  status : Nat
  headers : List (String × String)
  body : String
deriving Repr, DecidableEq

/-- `into_response` in lib.rs: serialize `self` into a buffer; on success
respond with the problem content type and the serialized bytes (axum
gives a `([(HeaderName, HeaderValue); 1], Bytes)` tuple status 200 OK);
on failure respond with the static `INTERNAL_SERVER_ERROR` constant. -/
def into_response {Extension : Type} (ser : Extension → Except Unit Json)
    (p : ProblemDetails Extension) : Response :=
  match problemFields ser p with
  | Except.ok fields =>
      { status := 200
        headers := [(CONTENT_TYPE, APPLICATION_PROBLEM_JSON)]
        body := Json.render (Json.obj fields) }
  | Except.error _ =>
      { status := INTERNAL_SERVER_ERROR.1
        headers := INTERNAL_SERVER_ERROR.2.1
        body := INTERNAL_SERVER_ERROR.2.2 }

/-! ## Claim theorems -/

/-- C1: when the extension's serialization fails, `into_response` returns
status 500, the same `application/problem+json` content type as the
success path, and a body byte-for-byte equal to the fixed fallback
constant, which reproduces the documented body exactly — including the
missing comma after the `detail` member. -/
theorem C1_fallback_exact_bytes {Extension : Type}
    (ser : Extension → Except Unit Json) (p : ProblemDetails Extension)
    (e : Extension) (hext : p.extensions = some e)
    (hser : ser e = Except.error ()) :
    into_response ser p =
      { status := 500
        headers := [(CONTENT_TYPE, APPLICATION_PROBLEM_JSON)]
        body := INTERNAL_SERVER_ERROR_PROBLEM } ∧
    INTERNAL_SERVER_ERROR_PROBLEM =
      "\x7b\n    \"type\": \"internal_server_error\",\n    \"title\": \"Internal Server Error\",\n    \"detail\": \"Something went wrong when processing your request. Please try again later.\"\n    \"status\": 500\n\x7d" := by
  refine ⟨?_, rfl⟩
  have h : problemFields ser p = Except.error () := by
    simp [problemFields, hext, hser]
  unfold into_response
  rw [h]
  rfl

/-- Witness for C1: a serializer that always errors, on a concrete
problem value with an extension present. -/
theorem C1_fallback_exact_bytes_witness :
    into_response (fun _ : ValidationErrors => Except.error ())
        ⟨"validation_error", 400, "Bad Request", "invalid input", some ⟨[]⟩⟩ =
      { status := 500
        headers := [(CONTENT_TYPE, APPLICATION_PROBLEM_JSON)]
        body := INTERNAL_SERVER_ERROR_PROBLEM } ∧
    INTERNAL_SERVER_ERROR_PROBLEM =
      "\x7b\n    \"type\": \"internal_server_error\",\n    \"title\": \"Internal Server Error\",\n    \"detail\": \"Something went wrong when processing your request. Please try again later.\"\n    \"status\": 500\n\x7d" :=
  C1_fallback_exact_bytes (fun _ : ValidationErrors => Except.error ())
    (⟨"validation_error", 400, "Bad Request", "invalid input", some ⟨[]⟩⟩ :
      ProblemDetails ValidationErrors)
    ⟨[]⟩ rfl rfl

/-- C2 counterexample: the claim says serializing
`Source::Body{pointer: None}` yields an object with no `pointer` key at
all; in the code the field has no `skip_serializing_if`, so serde emits
`"pointer": null` — the key is present. -/
theorem C2_pointer_none_counterexample :
    List.lookup "pointer" (Source.serdeFields (Source.body none)) ≠ none ∧
    Source.toJson (Source.body none) =
      Json.obj [("source", Json.str "body"), ("pointer", Json.null)] := by
  refine ⟨?_, rfl⟩
  simp [Source.serdeFields, List.lookup]

/-- C2 (amended): serializing `Source::Body{pointer: None}` produces an
object whose `pointer` member is JSON `null`, while
`Source::Body{pointer: Some(p)}` produces `"pointer": p`. -/
theorem C2_pointer_serialization :
    Source.toJson (Source.body none) =
      Json.obj [("source", Json.str "body"), ("pointer", Json.null)] ∧
    ∀ p : String, Source.toJson (Source.body (some p)) =
      Json.obj [("source", Json.str "body"), ("pointer", Json.str p)] :=
  ⟨rfl, fun _ => rfl⟩

/-- C3: `into_response` is total and never surfaces an error value: every
input produces either the success response (serialized fields with the
problem content type) or the static fallback constant, which involves no
further serialization. -/
theorem C3_encode_never_errors {Extension : Type}
    (ser : Extension → Except Unit Json) (p : ProblemDetails Extension) :
    (∃ fields, problemFields ser p = Except.ok fields ∧
        into_response ser p =
          { status := 200
            headers := [(CONTENT_TYPE, APPLICATION_PROBLEM_JSON)]
            body := Json.render (Json.obj fields) }) ∨
    (problemFields ser p = Except.error () ∧
        into_response ser p =
          { status := INTERNAL_SERVER_ERROR.1
            headers := INTERNAL_SERVER_ERROR.2.1
            body := INTERNAL_SERVER_ERROR.2.2 }) := by
  cases h : problemFields ser p with
  | ok fields =>
      exact Or.inl ⟨fields, rfl, by unfold into_response; rw [h]⟩
  | error u =>
      cases u
      exact Or.inr ⟨rfl, by unfold into_response; rw [h]⟩

/-- C4: with `extensions = None` the serialized body is exactly the four
members `type`, `status`, `title`, `detail` — `status` as a JSON number
and `type_` renamed to `type` — and nothing else. -/
theorem C4_no_extension_exactly_four {Extension : Type}
    (ser : Extension → Except Unit Json) (p : ProblemDetails Extension)
    (hext : p.extensions = none) :
    problemFields ser p = Except.ok
      [("type", Json.str p.type_),
       ("status", Json.num p.status),
       ("title", Json.str p.title),
       ("detail", Json.str p.detail)] ∧
    into_response ser p =
      { status := 200
        headers := [(CONTENT_TYPE, APPLICATION_PROBLEM_JSON)]
        body := Json.render (Json.obj (baseFields p)) } := by
  have h : problemFields ser p = Except.ok (baseFields p) := by
    unfold problemFields
    rw [hext]
  exact ⟨h, by unfold into_response; rw [h]⟩

/-- Witness for C4: a concrete problem value with no extension. -/
theorem C4_no_extension_exactly_four_witness :
    problemFields serValidationErrors ⟨"not_found", 404, "Not Found", "no such user", none⟩ =
      Except.ok
        [("type", Json.str "not_found"),
         ("status", Json.num 404),
         ("title", Json.str "Not Found"),
         ("detail", Json.str "no such user")] ∧
    into_response serValidationErrors ⟨"not_found", 404, "Not Found", "no such user", none⟩ =
      { status := 200
        headers := [(CONTENT_TYPE, APPLICATION_PROBLEM_JSON)]
        body := Json.render (Json.obj (baseFields ⟨"not_found", 404, "Not Found", "no such user", (none : Option ValidationErrors)⟩)) } :=
  C4_no_extension_exactly_four serValidationErrors
    ⟨"not_found", 404, "Not Found", "no such user", none⟩ rfl

/-- The validation error of the spec's worked scenario. -/
def scenarioError : ValidationError :=
  ⟨"must be positive", Source.body (some "/age")⟩

/-- The problem value of the spec's worked scenario. -/
def scenarioProblem : ProblemDetails ValidationErrors :=
  ⟨"validation_error", 400, "Bad Request", "invalid input", some ⟨[scenarioError]⟩⟩

/-- C5: when the extension serializes to a JSON object, `into_response`
returns the problem content type and a single flat object holding exactly
`type`, `status`, `title`, `detail` plus the extension's own members
merged at the same level (not nested under a key). -/
theorem C5_success_flat_merge {Extension : Type}
    (ser : Extension → Except Unit Json) (p : ProblemDetails Extension)
    (e : Extension) (kvs : List (String × Json))
    (hext : p.extensions = some e)
    (hser : ser e = Except.ok (Json.obj kvs)) :
    into_response ser p =
      { status := 200
        headers := [(CONTENT_TYPE, APPLICATION_PROBLEM_JSON)]
        body := Json.render (Json.obj (baseFields p ++ kvs)) } ∧
    (baseFields p ++ kvs).map Prod.fst
      = ["type", "status", "title", "detail"] ++ kvs.map Prod.fst := by
  have h : problemFields ser p = Except.ok (baseFields p ++ kvs) := by
    simp [problemFields, hext, hser]
  refine ⟨?_, by simp [baseFields]⟩
  unfold into_response
  rw [h]

/-- Witness for C5: the spec's worked scenario, with the rendered body
spelled out byte for byte. -/
theorem C5_success_flat_merge_witness :
    (into_response serValidationErrors scenarioProblem =
      { status := 200
        headers := [(CONTENT_TYPE, APPLICATION_PROBLEM_JSON)]
        body := Json.render (Json.obj (baseFields scenarioProblem ++
          [("errors", Json.arr [scenarioError.toJson])])) } ∧
    (baseFields scenarioProblem ++
        [("errors", Json.arr [scenarioError.toJson])]).map Prod.fst
      = ["type", "status", "title", "detail"] ++
        [("errors", Json.arr [scenarioError.toJson])].map Prod.fst) ∧
    Json.render (Json.obj (baseFields scenarioProblem ++
        [("errors", Json.arr [scenarioError.toJson])]))
      = "\x7b\"type\":\"validation_error\",\"status\":400,\"title\":\"Bad Request\",\"detail\":\"invalid input\",\"errors\":[\x7b\"detail\":\"must be positive\",\"source\":\"body\",\"pointer\":\"/age\"\x7d]\x7d" :=
  ⟨C5_success_flat_merge serValidationErrors scenarioProblem
     ⟨[scenarioError]⟩ [("errors", Json.arr [scenarioError.toJson])] rfl rfl,
   by rfl⟩

/-- C6: serializing `Source` always injects the `source` discriminator
as the first member, with value `"body"` or `"header"` according to the
variant; `Source::Header{name: "Authorization"}` serializes to exactly
that object with the variant's field flattened beside the tag. -/
theorem C6_source_discriminator :
    (∀ s : Source, ∃ rest,
        Source.serdeFields s =
          ("source", Json.str (match s with
                               | Source.body _ => "body"
                               | Source.header _ => "header")) :: rest) ∧
    Source.toJson (Source.header "Authorization") =
      Json.obj [("source", Json.str "header"), ("name", Json.str "Authorization")] := by
  refine ⟨fun s => ?_, rfl⟩
  cases s <;> exact ⟨_, rfl⟩

/-- C7: every invocation of `into_response`, on the success path and on
the fallback path alike, carries exactly the header
`Content-Type: application/problem+json`. -/
theorem C7_content_type_both_paths {Extension : Type}
    (ser : Extension → Except Unit Json) (p : ProblemDetails Extension) :
    (into_response ser p).headers = [(CONTENT_TYPE, APPLICATION_PROBLEM_JSON)] := by
  unfold into_response
  cases h : problemFields ser p <;> rfl

/-- C8: serializing `ValidationErrors` produces a JSON array under the
`errors` key whose length matches the input and whose i-th element is
the serialization of the i-th input error — insertion order preserved,
the empty sequence included. -/
theorem C8_errors_insertion_order (errs : List ValidationError) :
    ValidationErrors.toJson ⟨errs⟩ =
      Json.obj [("errors", Json.arr (errs.map ValidationError.toJson))] ∧
    (errs.map ValidationError.toJson).length = errs.length ∧
    ∀ i : Fin errs.length,
      (errs.map ValidationError.toJson).get ⟨i.1, by simp⟩ =
        ValidationError.toJson (errs.get i) := by
  refine ⟨rfl, by simp, fun i => ?_⟩
  simp [List.get_eq_getElem, List.getElem_map]

/-- C9: `into_response` is deterministic — on equal inputs with the same
serializer it produces identical status, headers and body. -/
theorem C9_deterministic {Extension : Type}
    (ser : Extension → Except Unit Json) (p q : ProblemDetails Extension)
    (h : p = q) :
    (into_response ser p).status = (into_response ser q).status ∧
    (into_response ser p).headers = (into_response ser q).headers ∧
    (into_response ser p).body = (into_response ser q).body := by
  subst h
  exact ⟨rfl, rfl, rfl⟩

/-- Witness for C9: two invocations on the same concrete value. -/
theorem C9_deterministic_witness :
    (into_response serValidationErrors scenarioProblem).status =
      (into_response serValidationErrors scenarioProblem).status ∧
    (into_response serValidationErrors scenarioProblem).headers =
      (into_response serValidationErrors scenarioProblem).headers ∧
    (into_response serValidationErrors scenarioProblem).body =
      (into_response serValidationErrors scenarioProblem).body :=
  C9_deterministic serValidationErrors scenarioProblem scenarioProblem rfl

/-- C10: when the extension serializes to anything other than a JSON
object (a scalar, an array, null — violating the flatten precondition),
the serde error is absorbed and `into_response` still returns the static
500 fallback response. -/
theorem C10_nonobject_extension_fallback {Extension : Type}
    (ser : Extension → Except Unit Json) (p : ProblemDetails Extension)
    (e : Extension) (j : Json)
    (hext : p.extensions = some e) (hser : ser e = Except.ok j)
    (hnotobj : ∀ kvs, j ≠ Json.obj kvs) :
    into_response ser p =
      { status := 500
        headers := [(CONTENT_TYPE, APPLICATION_PROBLEM_JSON)]
        body := INTERNAL_SERVER_ERROR_PROBLEM } := by
  have h : problemFields ser p = Except.error () := by
    cases j with
    | obj kvs => exact absurd rfl (hnotobj kvs)
    | null => simp [problemFields, hext, hser]
    | bool b => simp [problemFields, hext, hser]
    | num n => simp [problemFields, hext, hser]
    | str s => simp [problemFields, hext, hser]
    | arr es => simp [problemFields, hext, hser]
  unfold into_response
  rw [h]
  rfl

/-- Witness for C10: an extension that serializes to a JSON array. -/
theorem C10_nonobject_extension_fallback_witness :
    into_response (fun _ : ValidationErrors => Except.ok (Json.arr []))
        (⟨"t", 400, "T", "d", some ⟨[]⟩⟩ : ProblemDetails ValidationErrors) =
      { status := 500
        headers := [(CONTENT_TYPE, APPLICATION_PROBLEM_JSON)]
        body := INTERNAL_SERVER_ERROR_PROBLEM } :=
  C10_nonobject_extension_fallback
    (fun _ : ValidationErrors => Except.ok (Json.arr []))
    (⟨"t", 400, "T", "d", some ⟨[]⟩⟩ : ProblemDetails ValidationErrors)
    ⟨[]⟩ (Json.arr []) rfl rfl (fun _ h => Json.noConfusion h)
